import Mathlib

/-!
Shallow embedding of the measurement pipeline of `watertank.ino`
(functions `measureLight`, `measureRain`, `measureWater` and the
configuration constants they use).  Values filtered by the exponential
filter are stored in `int` globals in the source, so filtered values are
`Int` here; trends are C `float`s, modelled as `ℚ`; timestamps are
`millis()` values (`unsigned long`), modelled as `Nat`; statuses are
`unsigned char` constants, modelled as `Nat`.
-/

-- Configuration constants (watertank.ino lines 90-202)

def COUNT_TREND_LIGHT : Nat := 10

def COUNT_TREND_RAIN : Nat := 6

def COUNT_TREND_WATER : Nat := 12

def LIGHT_VALUE_DARK : Int := 8

def LIGHT_VALUE_TWILIGHT : Int := 32

def LIGHT_VALUE_CLOUDY : Int := 512

def LIGHT_VALUE_CLEAR : Int := 1024

def LIGHT_VALUE_MARGIN : Int := 2

def LIGHT_STATUS_DARK : Nat := 1

def LIGHT_STATUS_TWILIGHT : Nat := 2

def LIGHT_STATUS_CLOUDY : Nat := 3

def LIGHT_STATUS_CLEAR : Nat := 4

def LIGHT_STATUS_SUNNY : Nat := 5

def RAIN_VALUE_DRY : Int := 63

def RAIN_VALUE_DEW : Int := 127

def RAIN_VALUE_RAIN : Int := 512

def RAIN_VALUE_MARGIN : Int := 4

def RAIN_STATUS_DRY : Nat := 1

def RAIN_STATUS_DEW : Nat := 2

def RAIN_STATUS_RAIN : Nat := 3

def RAIN_STATUS_SHOWER : Nat := 4

def SONAR_DISTANCE_MAX : Int := 95

def WATER_TANK_EMPTY : Int := 89

def WATER_TREND_MARGIN : ℚ := 3 / 2

def WATER_STATUS_STABLE : Nat := 1

def WATER_STATUS_FILLING : Nat := 2

def WATER_STATUS_PUMPING : Nat := 3

def FACTOR_LIGHT : ℚ := 1 / 5

def FACTOR_RAIN : ℚ := 1 / 2

def FACTOR_WATER : ℚ := 4 / 5

/-- Per-channel mutable state of one `measure*` routine: the published
globals (`*Value`, `*Trend`, `*Status`, `*ValueMin`, `*ValueMax`) and the
function-static locals (`tsMeasureOld`, `cntMeasure`, `*ValueOld`,
`*StatusOld`). -/
structure VState where
  value : Int
  valueOld : Int
  tsOld : Nat
  cnt : Nat
  trend : ℚ
  status : Nat
  statusOld : Nat
  vmin : Int
  vmax : Int
deriving Repr, DecidableEq

/-- Per-channel compile-time configuration distinguishing `measureLight`
from `measureRain`: trend-sample count, hysteresis margin and the
value-bucket classifier. -/
structure VCfg where
  K : Nat
  margin : Int
  classify : Int → Nat

/-- Value-bucket classifier of `measureLight` (lines 272-282). -/
def lightClassify (v : Int) : Nat :=
  if v ≤ LIGHT_VALUE_DARK then LIGHT_STATUS_DARK
  else if v ≤ LIGHT_VALUE_TWILIGHT then LIGHT_STATUS_TWILIGHT
  else if v ≤ LIGHT_VALUE_CLOUDY then LIGHT_STATUS_CLOUDY
  else if v ≤ LIGHT_VALUE_CLEAR then LIGHT_STATUS_CLEAR
  else LIGHT_STATUS_SUNNY

/-- Value-bucket classifier of `measureRain` (lines 336-344). -/
def rainClassify (v : Int) : Nat :=
  if v ≤ RAIN_VALUE_DRY then RAIN_STATUS_DRY
  else if v ≤ RAIN_VALUE_DEW then RAIN_STATUS_DEW
  else if v ≤ RAIN_VALUE_RAIN then RAIN_STATUS_RAIN
  else RAIN_STATUS_SHOWER

def lightCfg : VCfg := ⟨COUNT_TREND_LIGHT, LIGHT_VALUE_MARGIN, lightClassify⟩

def rainCfg : VCfg := ⟨COUNT_TREND_RAIN, RAIN_VALUE_MARGIN, rainClassify⟩

/-- One measurement cycle of a value-bucket channel (`measureLight`
lines 256-306, `measureRain` lines 320-368), applied to the freshly
filtered value `v` at timestamp `ts` (the body inside the cadence check,
after `*Value` has been assigned).  The `Bool` result is the
status-change event: the guard of the notification block and of the
rebinding of `*StatusOld`. -/
def valueStep (cfg : VCfg) (s : VState) (v : Int) (ts : Nat) : VState × Bool :=
  if s.tsOld = 0 then
    ({ s with value := v, tsOld := ts, valueOld := v }, false)
  else if ts > s.tsOld then
    let vmin := if s.vmin > v then v else s.vmin
    let vmax := if s.vmax < v then v else s.vmax
    let cnt := s.cnt + 1
    if cnt ≥ cfg.K then
      let diff := |v - s.valueOld|
      let trend := 60000 * ((v : ℚ) - (s.valueOld : ℚ)) / ((ts : ℚ) - (s.tsOld : ℚ))
      let status := cfg.classify v
      let changed : Bool := decide (s.statusOld ≠ status ∧ diff ≥ cfg.margin)
      ({ value := v, valueOld := v, tsOld := ts, cnt := 0, trend := trend,
         status := status,
         statusOld := if changed then status else s.statusOld,
         vmin := vmin, vmax := vmax }, changed)
    else
      ({ s with value := v, vmin := vmin, vmax := vmax, cnt := cnt }, false)
  else
    ({ s with value := v }, false)

/-- Status determination of `measureWater` (lines 399-401): three
sequential `if` statements updating the incoming status `st`. -/
def waterStatusUpd (t : ℚ) (st : Nat) : Nat :=
  let s1 := if |t| ≤ WATER_TREND_MARGIN then WATER_STATUS_STABLE else st
  let s2 := if t > WATER_TREND_MARGIN then WATER_STATUS_FILLING else s1
  if t < -1 * WATER_TREND_MARGIN then WATER_STATUS_PUMPING else s2

/-- One measurement cycle of `measureWater` (lines 383-429), applied to
the freshly filtered level `v` at timestamp `ts`.  It differs from
`valueStep` by the negative-minimum recovery line 389, the trend-bucket
status and the margin-free status-change guard (line 402). -/
def waterStep (s : VState) (v : Int) (ts : Nat) : VState × Bool :=
  if s.tsOld = 0 then
    ({ s with value := v, tsOld := ts, valueOld := v }, false)
  else if ts > s.tsOld then
    let vmin0 := if s.vmin < 0 then s.vmax else s.vmin
    let vmin := if vmin0 > v then v else vmin0
    let vmax := if s.vmax < v then v else s.vmax
    let cnt := s.cnt + 1
    if cnt ≥ COUNT_TREND_WATER then
      let trend := 60000 * ((v : ℚ) - (s.valueOld : ℚ)) / ((ts : ℚ) - (s.tsOld : ℚ))
      let status := waterStatusUpd trend s.status
      let changed : Bool := decide (s.statusOld ≠ status)
      ({ value := v, valueOld := v, tsOld := ts, cnt := 0, trend := trend,
         status := status,
         statusOld := if changed then status else s.statusOld,
         vmin := vmin, vmax := vmax }, changed)
    else
      ({ s with value := v, vmin := vmin, vmax := vmax, cnt := cnt }, false)
  else
    ({ s with value := v }, false)

/-- Initial state of the light channel: retained globals start at their
declared initializers (`lightValueMin = 4096`, `lightValueMax = 0`,
`lightStatus = 0`, line 154/157), statics at zero. -/
def lightInit : VState :=
  { value := 0, valueOld := 0, tsOld := 0, cnt := 0, trend := 0,
    status := 0, statusOld := 0, vmin := 4096, vmax := 0 }

/-- Initial state of the rain channel (`rainValueMin = 4096`, line 155). -/
def rainInit : VState :=
  { value := 0, valueOld := 0, tsOld := 0, cnt := 0, trend := 0,
    status := 0, statusOld := 0, vmin := 4096, vmax := 0 }

/-- Initial state of the water channel (`waterValueMin = 100`, line 156). -/
def waterInit : VState :=
  { value := 0, valueOld := 0, tsOld := 0, cnt := 0, trend := 0,
    status := 0, statusOld := 0, vmin := 100, vmax := 0 }

/-- Run a value-bucket channel through a list of (filtered value,
timestamp) cycles. -/
def runValue (cfg : VCfg) (s : VState) (l : List (Int × Nat)) : VState :=
  l.foldl (fun st p => (valueStep cfg st p.1 p.2).1) s

/-- Run the water channel through a list of (filtered level, timestamp)
cycles. -/
def runWater (s : VState) (l : List (Int × Nat)) : VState :=
  l.foldl (fun st p => (waterStep st p.1 p.2).1) s

/-- The water level fed to the filter: `WATER_TANK_EMPTY - median`
(line 382). -/
def waterLevelOf (distanceMedian : Int) : Int :=
  WATER_TANK_EMPTY - distanceMedian

/-- Modelled from the spec: the `exponential-filter` library (not under
src) — `getValue` seeds its internal state to the first sample and
returns it unchanged; afterwards it returns
`factor * newSample + (1 - factor) * state` and stores that result. -/
def efGetValue (factor : ℚ) (st : Option ℚ) (x : ℚ) : ℚ × Option ℚ :=
  match st with
  | none => (x, some x)
  | some s0 =>
    let r := factor * x + (1 - factor) * s0
    (r, some r)

/-- Insert into a sorted list of `Int`. -/
def insertSorted (x : Int) : List Int → List Int
  | [] => [x]
  | y :: ys => if x ≤ y then x :: y :: ys else y :: insertSorted x ys

/-- Insertion sort on `Int` lists. -/
def sortList : List Int → List Int
  | [] => []
  | x :: xs => insertSorted x (sortList xs)

/-- Modelled from the spec: the `SmoothSensorData` library (not under
src) — a completed burst is reduced to the middle element of the sorted
burst (odd burst size). -/
def burstMedian (l : List Int) : Int :=
  (sortList l).getD ((l.length - 1) / 2) 0

/-- Modelled from the spec: the `sonar-ping` library (not under src) —
`getDistance` returns the configured maximum distance as a sentinel when
the echo times out or the measured distance is out of the valid
2..maximum range. -/
def sonarGetDistance (maxDistance : Int) (echo : Option Int) : Int :=
  match echo with
  | none => maxDistance
  | some d => if d > maxDistance ∨ d < 2 then maxDistance else d

/-- Trend-sample counter configuration with K = 1, used for the spec's
Scenario C. -/
def k1Cfg : VCfg := ⟨1, LIGHT_VALUE_MARGIN, lightClassify⟩

/-- A seeded light-channel state: one prior reading (value 10 at
timestamp 1), counter at 9 so the next cycle reaches K = 10. -/
def seededState : VState := { lightInit with tsOld := 1, valueOld := 10, cnt := 9 }

/-- A seeded water-channel state: one prior reading (value 0 at
timestamp 1), counter at 11 so the next cycle reaches K = 12. -/
def waterTrendState : VState := { waterInit with tsOld := 1, valueOld := 0, cnt := 11 }

/-- A light-channel state right after the seeding cycle (extrema still at
their sentinels). -/
def seedState1 : VState := { lightInit with tsOld := 1 }

/-- A water-channel state right after the seeding cycle (extrema still at
their sentinels). -/
def seedStateW : VState := { waterInit with tsOld := 1 }

/-- A light-channel trace from boot: a seeding cycle at value 8, ten
cycles at value 8 reaching the first trend recomputation, then ten
cycles at value 9 reaching the second one. -/
def lightTrace : List (Int × Nat) :=
  [(8, 1), (8, 2), (8, 3), (8, 4), (8, 5), (8, 6), (8, 7), (8, 8), (8, 9),
   (8, 10), (8, 11),
   (9, 12), (9, 13), (9, 14), (9, 15), (9, 16), (9, 17), (9, 18), (9, 19),
   (9, 20), (9, 21)]

/-- A seeded light-channel state one cycle short of K with previous
status baseline 0 and old value 0, for exercising the notification
guard. -/
def notifyState : VState := { lightInit with tsOld := 1, valueOld := 0 }

-- Helper lemmas

/-- If a value-channel step changed the trend field, the cycle was a
seeded, time-advancing cycle whose counter reached K. -/
lemma valueTrendChangeInv (cfg : VCfg) (s : VState) (v : Int) (ts : Nat)
    (h : (valueStep cfg s v ts).1.trend ≠ s.trend) :
    s.tsOld ≠ 0 ∧ s.tsOld < ts ∧ cfg.K ≤ s.cnt + 1 := by
  by_cases h0 : s.tsOld = 0
  · simp [valueStep, h0] at h
  · by_cases h1 : ts > s.tsOld
    · by_cases h2 : s.cnt + 1 ≥ cfg.K
      · exact ⟨h0, h1, h2⟩
      · simp [valueStep, h0, h1, h2] at h
    · simp [valueStep, h0, h1] at h

/-- If a water step changed the trend field, the cycle was a seeded,
time-advancing cycle whose counter reached K. -/
lemma waterTrendChangeInv (s : VState) (v : Int) (ts : Nat)
    (h : (waterStep s v ts).1.trend ≠ s.trend) :
    s.tsOld ≠ 0 ∧ s.tsOld < ts ∧ COUNT_TREND_WATER ≤ s.cnt + 1 := by
  by_cases h0 : s.tsOld = 0
  · simp [waterStep, h0] at h
  · by_cases h1 : ts > s.tsOld
    · by_cases h2 : s.cnt + 1 ≥ COUNT_TREND_WATER
      · exact ⟨h0, h1, h2⟩
      · simp [waterStep, h0, h1, h2] at h
    · simp [waterStep, h0, h1] at h

/-- C1.  For every channel (the parameterized value-bucket step covering
Light and Rain, and the water step), when the trend-sample counter
reaches K on a seeded, time-advancing cycle, the new trend equals
`60000 * (filteredValue - oldValue) / (nowMillis - oldTimestamp)`, the
counter is reset to zero, and `oldValue`/`oldTimestamp` are rebound to
the current reading. -/
theorem trendAtCounterK :
    (∀ (cfg : VCfg) (s : VState) (v : Int) (ts : Nat),
       s.tsOld ≠ 0 → s.tsOld < ts → cfg.K ≤ s.cnt + 1 →
       (valueStep cfg s v ts).1.trend =
           60000 * ((v : ℚ) - (s.valueOld : ℚ)) / ((ts : ℚ) - (s.tsOld : ℚ)) ∧
       (valueStep cfg s v ts).1.cnt = 0 ∧
       (valueStep cfg s v ts).1.valueOld = v ∧
       (valueStep cfg s v ts).1.tsOld = ts) ∧
    (∀ (s : VState) (v : Int) (ts : Nat),
       s.tsOld ≠ 0 → s.tsOld < ts → COUNT_TREND_WATER ≤ s.cnt + 1 →
       (waterStep s v ts).1.trend =
           60000 * ((v : ℚ) - (s.valueOld : ℚ)) / ((ts : ℚ) - (s.tsOld : ℚ)) ∧
       (waterStep s v ts).1.cnt = 0 ∧
       (waterStep s v ts).1.valueOld = v ∧
       (waterStep s v ts).1.tsOld = ts) := by
  constructor
  · intro cfg s v ts h0 h1 h2
    simp [valueStep, h0, h1, h2]
  · intro s v ts h0 h1 h2
    simp [waterStep, h0, h1, h2]

/-- Witness for C1: a concrete seeded light state at counter 9 with
reading 16 at timestamp 2 yields trend 60000·(16−10)/(2−1) = 360000 and
the bookkeeping resets. -/
theorem trendAtCounterKW :
    (valueStep lightCfg seededState 16 2).1.trend = 360000 ∧
    (valueStep lightCfg seededState 16 2).1.cnt = 0 ∧
    (valueStep lightCfg seededState 16 2).1.valueOld = 16 ∧
    (valueStep lightCfg seededState 16 2).1.tsOld = 2 := by
  obtain ⟨h1, h2, h3, h4⟩ :=
    trendAtCounterK.1 lightCfg seededState 16 2 (by decide) (by decide) (by decide)
  refine ⟨?_, h2, h3, h4⟩
  rw [h1]
  norm_num [seededState, lightInit]

/-- The trend produced by the concrete seeded light state of
`seededState` at reading 16, timestamp 2. -/
lemma seededTrendVal : (valueStep lightCfg seededState 16 2).1.trend = 360000 := by
  norm_num [valueStep, seededState, lightInit, lightCfg, COUNT_TREND_LIGHT]

/-- The trend produced by the concrete seeded water state of
`waterTrendState` at reading 16, timestamp 2. -/
lemma waterTrendVal : (waterStep waterTrendState 16 2).1.trend = 960000 := by
  norm_num [waterStep, waterTrendState, waterInit, COUNT_TREND_WATER]

/-- The trend field of `seededState` and `waterTrendState` is 0. -/
lemma seededTrendZero : seededState.trend = 0 ∧ waterTrendState.trend = 0 := by
  constructor <;> rfl

/-- C6.  For every channel, the very first measurement cycle (unseeded
marker `tsMeasureOld = 0`) only assigns the filtered value and seeds the
remembered value and timestamp — trend, counter, extrema and statuses are
untouched and no status-change event fires — and whenever the trend field
is recomputed, the current timestamp strictly exceeds the remembered one,
so the elapsed-time divisor is strictly positive. -/
theorem seedNoDivision :
    (∀ (cfg : VCfg) (s : VState) (v : Int) (ts : Nat), s.tsOld = 0 →
       (valueStep cfg s v ts).1 = { s with value := v, tsOld := ts, valueOld := v } ∧
       (valueStep cfg s v ts).2 = false) ∧
    (∀ (s : VState) (v : Int) (ts : Nat), s.tsOld = 0 →
       (waterStep s v ts).1 = { s with value := v, tsOld := ts, valueOld := v } ∧
       (waterStep s v ts).2 = false) ∧
    (∀ (cfg : VCfg) (s : VState) (v : Int) (ts : Nat),
       (valueStep cfg s v ts).1.trend ≠ s.trend →
       s.tsOld < ts ∧ (s.tsOld : ℚ) < (ts : ℚ) ∧ (0 : ℚ) < (ts : ℚ) - (s.tsOld : ℚ)) ∧
    (∀ (s : VState) (v : Int) (ts : Nat),
       (waterStep s v ts).1.trend ≠ s.trend →
       s.tsOld < ts ∧ (s.tsOld : ℚ) < (ts : ℚ) ∧ (0 : ℚ) < (ts : ℚ) - (s.tsOld : ℚ)) := by
  refine ⟨?_, ?_, ?_, ?_⟩
  · intro cfg s v ts h0
    simp [valueStep, h0]
  · intro s v ts h0
    simp [waterStep, h0]
  · intro cfg s v ts h
    obtain ⟨-, h1, -⟩ := valueTrendChangeInv cfg s v ts h
    have hc : (s.tsOld : ℚ) < (ts : ℚ) := by exact_mod_cast h1
    exact ⟨h1, hc, by linarith⟩
  · intro s v ts h
    obtain ⟨-, h1, -⟩ := waterTrendChangeInv s v ts h
    have hc : (s.tsOld : ℚ) < (ts : ℚ) := by exact_mod_cast h1
    exact ⟨h1, hc, by linarith⟩

/-- Witness for C6: the initial light and water states are unseeded, so a
first reading only seeds; and at a concrete trend recomputation the
elapsed time is strictly positive. -/
theorem seedNoDivisionW :
    ((valueStep lightCfg lightInit 5 7).1 =
        { lightInit with value := 5, tsOld := 7, valueOld := 5 } ∧
     (valueStep lightCfg lightInit 5 7).2 = false) ∧
    ((waterStep waterInit 5 7).1 =
        { waterInit with value := 5, tsOld := 7, valueOld := 5 } ∧
     (waterStep waterInit 5 7).2 = false) ∧
    (seededState.tsOld < 2 ∧ (seededState.tsOld : ℚ) < ((2 : Nat) : ℚ) ∧
     (0 : ℚ) < ((2 : Nat) : ℚ) - (seededState.tsOld : ℚ)) ∧
    (waterTrendState.tsOld < 2 ∧ (waterTrendState.tsOld : ℚ) < ((2 : Nat) : ℚ) ∧
     (0 : ℚ) < ((2 : Nat) : ℚ) - (waterTrendState.tsOld : ℚ)) :=
  ⟨seedNoDivision.1 lightCfg lightInit 5 7 rfl,
   seedNoDivision.2.1 waterInit 5 7 rfl,
   seedNoDivision.2.2.1 lightCfg seededState 16 2
     (by rw [seededTrendVal, seededTrendZero.1]; norm_num),
   seedNoDivision.2.2.2 waterTrendState 16 2
     (by rw [waterTrendVal, seededTrendZero.2]; norm_num)⟩

/-- C9.  For every channel, the trend field is recomputed only at a
seeded, time-advancing cycle whose trend-sample counter reaches K; at
every cycle where the counter stays below K the trend retains its
previous value unchanged. -/
theorem trendFrame :
    (∀ (cfg : VCfg) (s : VState) (v : Int) (ts : Nat),
       (valueStep cfg s v ts).1.trend ≠ s.trend →
       s.tsOld ≠ 0 ∧ s.tsOld < ts ∧ cfg.K ≤ s.cnt + 1) ∧
    (∀ (cfg : VCfg) (s : VState) (v : Int) (ts : Nat),
       s.cnt + 1 < cfg.K → (valueStep cfg s v ts).1.trend = s.trend) ∧
    (∀ (s : VState) (v : Int) (ts : Nat),
       (waterStep s v ts).1.trend ≠ s.trend →
       s.tsOld ≠ 0 ∧ s.tsOld < ts ∧ COUNT_TREND_WATER ≤ s.cnt + 1) ∧
    (∀ (s : VState) (v : Int) (ts : Nat),
       s.cnt + 1 < COUNT_TREND_WATER → (waterStep s v ts).1.trend = s.trend) := by
  refine ⟨valueTrendChangeInv, ?_, waterTrendChangeInv, ?_⟩
  · intro cfg s v ts h
    have h2 : ¬ (s.cnt + 1 ≥ cfg.K) := by omega
    by_cases h0 : s.tsOld = 0
    · simp [valueStep, h0]
    · by_cases h1 : ts > s.tsOld
      · simp [valueStep, h0, h1, h2]
      · simp [valueStep, h0, h1]
  · intro s v ts h
    have h2 : ¬ (s.cnt + 1 ≥ COUNT_TREND_WATER) := by omega
    by_cases h0 : s.tsOld = 0
    · simp [waterStep, h0]
    · by_cases h1 : ts > s.tsOld
      · simp [waterStep, h0, h1, h2]
      · simp [waterStep, h0, h1]

/-- Witness for C9: a concrete trend change implies the counter reached
K, and a concrete below-K cycle leaves the trend at its old value. -/
theorem trendFrameW :
    (seededState.tsOld ≠ 0 ∧ seededState.tsOld < 2 ∧
       lightCfg.K ≤ seededState.cnt + 1) ∧
    (valueStep lightCfg seedState1 5 2).1.trend = seedState1.trend ∧
    (waterTrendState.tsOld ≠ 0 ∧ waterTrendState.tsOld < 2 ∧
       COUNT_TREND_WATER ≤ waterTrendState.cnt + 1) ∧
    (waterStep seedStateW 5 2).1.trend = seedStateW.trend :=
  ⟨trendFrame.1 lightCfg seededState 16 2
     (by rw [seededTrendVal, seededTrendZero.1]; norm_num),
   trendFrame.2.1 lightCfg seedState1 5 2 (by decide),
   trendFrame.2.2.1 waterTrendState 16 2
     (by rw [waterTrendVal, seededTrendZero.2]; norm_num),
   trendFrame.2.2.2 seedStateW 5 2 (by decide)⟩

/-- C5 (counterexample).  Scenario C taken literally on the code: with
K = 1, a first reading (10, t = 0) stores `tsMeasureOld = 0`, which is
the code's own unseeded marker, so the second reading (16, t = 60000)
only re-seeds and the trend stays 0, not 6. -/
theorem trendScenarioZeroTs :
    (runValue k1Cfg lightInit [(10, 0), (16, 60000)]).trend = 0 ∧
    (runValue k1Cfg lightInit [(10, 0), (16, 60000)]).trend ≠ 6 := by
  decide

/-- C5 (amended).  With K = 1 and the first reading at a nonzero
timestamp — (10, t = 60000) then (16, t = 120000), the same 60000 ms
apart — the second reading produces trend 6.0 units per minute. -/
theorem trendScenarioSeeded :
    (runValue k1Cfg lightInit [(10, 60000), (16, 120000)]).trend = 6 := by
  norm_num [runValue, List.foldl, valueStep, k1Cfg, lightInit]

/-- C2 (counterexample).  On the water channel, feeding filtered levels
−5, −5, −3 at timestamps 1, 2, 3 from the initial state leaves the
tracked minimum at −5 after the second cycle, but the negative-minimum
recovery line bumps it to the current maximum on the third cycle and it
ends at −3: the minimum increased across updates and exceeds the earlier
filtered value −5. -/
theorem waterMinNotMonotone :
    (runWater waterInit [((-5), 1), ((-5), 2)]).vmin = -5 ∧
    (runWater waterInit [((-5), 1), ((-5), 2), ((-3), 3)]).vmin = -3 ∧
    ¬ (runWater waterInit [((-5), 1), ((-5), 2), ((-3), 3)]).vmin ≤
        (runWater waterInit [((-5), 1), ((-5), 2)]).vmin := by
  decide

/-- C2 (amended).  On every extrema-updating cycle: for the value-bucket
channels (Light, Rain) the new minimum is at most the filtered value and
the previous minimum, and the new maximum is at least the filtered value
and the previous maximum; for the water channel the same sandwich around
the current value and the maximum monotonicity hold unconditionally,
while the minimum is non-increasing only when the previous minimum is
non-negative (a negative minimum is first overwritten with the current
maximum). -/
theorem extremaUpdateBounds :
    (∀ (cfg : VCfg) (s : VState) (v : Int) (ts : Nat),
       s.tsOld ≠ 0 → s.tsOld < ts →
       (valueStep cfg s v ts).1.vmin ≤ v ∧ v ≤ (valueStep cfg s v ts).1.vmax ∧
       (valueStep cfg s v ts).1.vmin ≤ s.vmin ∧ s.vmax ≤ (valueStep cfg s v ts).1.vmax) ∧
    (∀ (s : VState) (v : Int) (ts : Nat),
       s.tsOld ≠ 0 → s.tsOld < ts →
       (waterStep s v ts).1.vmin ≤ v ∧ v ≤ (waterStep s v ts).1.vmax ∧
       s.vmax ≤ (waterStep s v ts).1.vmax ∧
       (0 ≤ s.vmin → (waterStep s v ts).1.vmin ≤ s.vmin)) := by
  constructor
  · intro cfg s v ts h0 h1
    by_cases h2 : s.cnt + 1 ≥ cfg.K <;>
      simp [valueStep, h0, h1, h2] <;> split_ifs <;> omega
  · intro s v ts h0 h1
    by_cases h2 : s.cnt + 1 ≥ COUNT_TREND_WATER <;>
      simp [waterStep, h0, h1, h2] <;> split_ifs <;> omega

/-- Witness for C2 (amended): concrete extrema-updating cycles on the
light and water channels. -/
theorem extremaUpdateBoundsW :
    ((valueStep lightCfg seedState1 4 2).1.vmin ≤ 4 ∧
     (4 : Int) ≤ (valueStep lightCfg seedState1 4 2).1.vmax ∧
     (valueStep lightCfg seedState1 4 2).1.vmin ≤ seedState1.vmin ∧
     seedState1.vmax ≤ (valueStep lightCfg seedState1 4 2).1.vmax) ∧
    ((waterStep seedStateW 4 2).1.vmin ≤ 4 ∧
     (4 : Int) ≤ (waterStep seedStateW 4 2).1.vmax ∧
     seedStateW.vmax ≤ (waterStep seedStateW 4 2).1.vmax ∧
     (0 ≤ seedStateW.vmin → (waterStep seedStateW 4 2).1.vmin ≤ seedStateW.vmin)) :=
  ⟨extremaUpdateBounds.1 lightCfg seedState1 4 2 (by decide) (by decide),
   extremaUpdateBounds.2 seedStateW 4 2 (by decide) (by decide)⟩

/-- C7 (counterexample).  A first extrema-updating water reading of −6
(the filtered level after a sonar sentinel distance of 95) sets the
tracked minimum to −6 but leaves the tracked maximum at its sentinel 0,
not at the reading. -/
theorem waterSeedNegativeMax :
    (runWater waterInit [((-6), 1), ((-6), 2)]).vmin = -6 ∧
    (runWater waterInit [((-6), 1), ((-6), 2)]).vmax = 0 ∧
    (runWater waterInit [((-6), 1), ((-6), 2)]).vmax ≠ -6 := by
  decide

/-- C7 (amended).  For every channel, a first extrema-updating reading
`v` with 0 ≤ v below the min sentinel (with the max still at its
sentinel 0) sets both the tracked minimum and maximum to `v`; and
Scenario B holds: with `WATER_TANK_EMPTY = 89` and raw distance median
85 the level is 4, the filter seeds to 4, and after the first extrema
update min = max = 4. -/
theorem extremaSeedFirst :
    (∀ (cfg : VCfg) (s : VState) (v : Int) (ts : Nat),
       s.tsOld ≠ 0 → s.tsOld < ts → s.vmax = 0 → 0 ≤ v → v < s.vmin →
       (valueStep cfg s v ts).1.vmin = v ∧ (valueStep cfg s v ts).1.vmax = v) ∧
    (∀ (s : VState) (v : Int) (ts : Nat),
       s.tsOld ≠ 0 → s.tsOld < ts → s.vmax = 0 → 0 ≤ s.vmin → 0 ≤ v → v < s.vmin →
       (waterStep s v ts).1.vmin = v ∧ (waterStep s v ts).1.vmax = v) ∧
    (waterLevelOf 85 = 4 ∧
     (efGetValue FACTOR_WATER none ((4 : Int) : ℚ)).1 = 4 ∧
     (runWater waterInit [(4, 1), (4, 2)]).vmin = 4 ∧
     (runWater waterInit [(4, 1), (4, 2)]).vmax = 4) := by
  refine ⟨?_, ?_, by norm_num [waterLevelOf, WATER_TANK_EMPTY, efGetValue], by decide, by decide⟩
  · intro cfg s v ts h0 h1 hmax hv hlt
    by_cases h2 : s.cnt + 1 ≥ cfg.K <;>
      simp [valueStep, h0, h1, h2] <;> omega
  · intro s v ts h0 h1 hmax hmin hv hlt
    by_cases h2 : s.cnt + 1 ≥ COUNT_TREND_WATER <;>
      simp [waterStep, h0, h1, h2] <;> omega

/-- Witness for C7 (amended): first extrema update with reading 4 on the
light and water channels sets min = max = 4. -/
theorem extremaSeedFirstW :
    ((valueStep lightCfg seedState1 4 2).1.vmin = 4 ∧
     (valueStep lightCfg seedState1 4 2).1.vmax = 4) ∧
    ((waterStep seedStateW 4 2).1.vmin = 4 ∧
     (waterStep seedStateW 4 2).1.vmax = 4) :=
  ⟨extremaSeedFirst.1 lightCfg seedState1 4 2 (by decide) (by decide) (by decide)
      (by decide) (by decide),
   extremaSeedFirst.2.1 seedStateW 4 2 (by decide) (by decide) (by decide)
      (by decide) (by decide) (by decide)⟩

/-- The three sequential status `if`s of `measureWater` implement the
exclusive classification of the trend against the symmetric margin,
whatever status they start from. -/
lemma waterStatusUpdSpec (t : ℚ) (st : Nat) :
    (|t| ≤ WATER_TREND_MARGIN → waterStatusUpd t st = WATER_STATUS_STABLE) ∧
    (WATER_TREND_MARGIN < t → waterStatusUpd t st = WATER_STATUS_FILLING) ∧
    (t < -1 * WATER_TREND_MARGIN → waterStatusUpd t st = WATER_STATUS_PUMPING) := by
  have hm : (0 : ℚ) < WATER_TREND_MARGIN := by norm_num [WATER_TREND_MARGIN]
  refine ⟨?_, ?_, ?_⟩
  · intro h
    obtain ⟨hl, hr⟩ := abs_le.mp h
    simp only [waterStatusUpd]
    rw [if_neg (by push_neg; linarith), if_neg (by push_neg; linarith), if_pos h]
  · intro h
    simp only [waterStatusUpd]
    rw [if_neg (by push_neg; linarith), if_pos h]
  · intro h
    simp only [waterStatusUpd]
    rw [if_pos h]

/-- C4.  For the water channel, at every trend recomputation the status
is classified from the freshly computed trend against the symmetric
margin 1.5: `|trend| ≤ 1.5` gives "stable", `trend > 1.5` gives
"filling", `trend < -1.5` gives "pumping"; and Scenario D holds: trend
−2.0 yields "pumping", a subsequent trend −0.5 yields "stable", and a
subsequent trend +2.0 yields "filling". -/
theorem waterStatusFromTrend :
    (∀ (s : VState) (v : Int) (ts : Nat),
       s.tsOld ≠ 0 → s.tsOld < ts → COUNT_TREND_WATER ≤ s.cnt + 1 →
       (|(waterStep s v ts).1.trend| ≤ WATER_TREND_MARGIN →
          (waterStep s v ts).1.status = WATER_STATUS_STABLE) ∧
       (WATER_TREND_MARGIN < (waterStep s v ts).1.trend →
          (waterStep s v ts).1.status = WATER_STATUS_FILLING) ∧
       ((waterStep s v ts).1.trend < -1 * WATER_TREND_MARGIN →
          (waterStep s v ts).1.status = WATER_STATUS_PUMPING)) ∧
    (waterStatusUpd (-2) 0 = WATER_STATUS_PUMPING ∧
     waterStatusUpd (-(1 / 2)) WATER_STATUS_PUMPING = WATER_STATUS_STABLE ∧
     waterStatusUpd 2 WATER_STATUS_STABLE = WATER_STATUS_FILLING) := by
  constructor
  · intro s v ts h0 h1 h2
    have hs : (waterStep s v ts).1.status =
        waterStatusUpd ((waterStep s v ts).1.trend) s.status := by
      simp [waterStep, h0, h1, h2]
    rw [hs]
    exact waterStatusUpdSpec _ s.status
  · refine ⟨?_, ?_, ?_⟩ <;>
      norm_num [waterStatusUpd, WATER_TREND_MARGIN, WATER_STATUS_STABLE,
        WATER_STATUS_FILLING, WATER_STATUS_PUMPING, abs_le]

/-- Witness for C4: the concrete seeded water state at counter 11 with a
repeat of the old reading yields trend 0 and status "stable". -/
theorem waterStatusFromTrendW :
    (waterStep waterTrendState 0 2).1.status = WATER_STATUS_STABLE := by
  have h := (waterStatusFromTrend.1 waterTrendState 0 2
      (by decide) (by decide) (by decide)).1
  apply h
  have ht : (waterStep waterTrendState 0 2).1.trend = 0 := by
    norm_num [waterStep, waterTrendState, waterInit, COUNT_TREND_WATER]
  rw [ht]
  norm_num [WATER_TREND_MARGIN]

/-- C10.  For every trend value, exactly one of the three conditions
`|t| ≤ 1.5`, `t > 1.5`, `t < -1.5` holds, so the three sequential `if`
statements of `measureWater` assign the status exactly once: the result
is independent of the incoming status and equals the exclusive
nested-if classification. -/
theorem waterStatusExclusive :
    ∀ (t : ℚ) (s1 s2 : Nat),
      ((|t| ≤ WATER_TREND_MARGIN ∧ ¬ WATER_TREND_MARGIN < t ∧
          ¬ t < -1 * WATER_TREND_MARGIN) ∨
       (¬ |t| ≤ WATER_TREND_MARGIN ∧ WATER_TREND_MARGIN < t ∧
          ¬ t < -1 * WATER_TREND_MARGIN) ∨
       (¬ |t| ≤ WATER_TREND_MARGIN ∧ ¬ WATER_TREND_MARGIN < t ∧
          t < -1 * WATER_TREND_MARGIN)) ∧
      waterStatusUpd t s1 = waterStatusUpd t s2 ∧
      waterStatusUpd t s1 =
        (if |t| ≤ WATER_TREND_MARGIN then WATER_STATUS_STABLE
         else if WATER_TREND_MARGIN < t then WATER_STATUS_FILLING
         else WATER_STATUS_PUMPING) := by
  intro t s1 s2
  have hm : (0 : ℚ) < WATER_TREND_MARGIN := by norm_num [WATER_TREND_MARGIN]
  by_cases hA : |t| ≤ WATER_TREND_MARGIN
  · obtain ⟨hl, hr⟩ := abs_le.mp hA
    have e1 := (waterStatusUpdSpec t s1).1 hA
    have e2 := (waterStatusUpdSpec t s2).1 hA
    refine ⟨Or.inl ⟨hA, by push_neg; linarith, by push_neg; linarith⟩, ?_, ?_⟩
    · rw [e1, e2]
    · rw [e1, if_pos hA]
  · rcases lt_abs.mp (not_le.mp hA) with hB | hB
    · have e1 := (waterStatusUpdSpec t s1).2.1 hB
      have e2 := (waterStatusUpdSpec t s2).2.1 hB
      refine ⟨Or.inr (Or.inl ⟨hA, hB, by push_neg; linarith⟩), ?_, ?_⟩
      · rw [e1, e2]
      · rw [e1, if_neg hA, if_pos hB]
    · have hC : t < -1 * WATER_TREND_MARGIN := by linarith
      have e1 := (waterStatusUpdSpec t s1).2.2 hC
      have e2 := (waterStatusUpdSpec t s2).2.2 hC
      refine ⟨Or.inr (Or.inr ⟨hA, by push_neg; linarith, hC⟩), ?_, ?_⟩
      · rw [e1, e2]
      · rw [e1, if_neg hA, if_neg (by push_neg; linarith)]

/-- Witness for C10: instantiation at trend −2 and two different
incoming statuses. -/
theorem waterStatusExclusiveW :
    ((|(-2 : ℚ)| ≤ WATER_TREND_MARGIN ∧ ¬ WATER_TREND_MARGIN < (-2 : ℚ) ∧
        ¬ (-2 : ℚ) < -1 * WATER_TREND_MARGIN) ∨
     (¬ |(-2 : ℚ)| ≤ WATER_TREND_MARGIN ∧ WATER_TREND_MARGIN < (-2 : ℚ) ∧
        ¬ (-2 : ℚ) < -1 * WATER_TREND_MARGIN) ∨
     (¬ |(-2 : ℚ)| ≤ WATER_TREND_MARGIN ∧ ¬ WATER_TREND_MARGIN < (-2 : ℚ) ∧
        (-2 : ℚ) < -1 * WATER_TREND_MARGIN)) ∧
    waterStatusUpd (-2) 0 = waterStatusUpd (-2) 5 ∧
    waterStatusUpd (-2) 0 =
      (if |(-2 : ℚ)| ≤ WATER_TREND_MARGIN then WATER_STATUS_STABLE
       else if WATER_TREND_MARGIN < (-2 : ℚ) then WATER_STATUS_FILLING
       else WATER_STATUS_PUMPING) :=
  waterStatusExclusive (-2) 0 5

/-- C3 (counterexample).  On the light channel (hysteresis margin 2), a
trace holding value 8 through the first trend recomputation and value 9
through the second one changes the published status from "dark" to
"twilight" at the second recomputation even though the underlying value
changed by only 1 < 2 since the last trend sample — the margin gates
only the notification and the baseline rebinding, not the status field. -/
theorem lightStatusBelowMargin :
    (runValue lightCfg lightInit (lightTrace.take 20)).status = LIGHT_STATUS_DARK ∧
    (runValue lightCfg lightInit lightTrace).status = LIGHT_STATUS_TWILIGHT ∧
    (runValue lightCfg lightInit lightTrace).status ≠
        (runValue lightCfg lightInit (lightTrace.take 20)).status ∧
    (runValue lightCfg lightInit (lightTrace.take 20)).valueOld = 8 ∧
    |(9 : Int) - (runValue lightCfg lightInit (lightTrace.take 20)).valueOld| <
        LIGHT_VALUE_MARGIN := by
  decide

/-- C3 (amended).  For every value-bucket channel: the status field
changes only at a cycle where the trend is recomputed, and then it is
reclassified from the filtered value regardless of the margin; the
status-change event (which triggers the notification and rebinds the
previous-status baseline) fires exactly when the new classification
differs from the baseline status and the absolute change in filtered
value since the last trend sample is at least the hysteresis margin;
when it does not fire, the baseline is unchanged. -/
theorem statusChangePolicy :
    ∀ (cfg : VCfg) (s : VState) (v : Int) (ts : Nat),
      ((valueStep cfg s v ts).1.status ≠ s.status →
         s.tsOld ≠ 0 ∧ s.tsOld < ts ∧ cfg.K ≤ s.cnt + 1 ∧
         (valueStep cfg s v ts).1.status = cfg.classify v) ∧
      ((valueStep cfg s v ts).2 = true →
         cfg.classify v ≠ s.statusOld ∧ cfg.margin ≤ |v - s.valueOld| ∧
         (valueStep cfg s v ts).1.statusOld = cfg.classify v) ∧
      ((valueStep cfg s v ts).2 = false →
         (valueStep cfg s v ts).1.statusOld = s.statusOld) := by
  intro cfg s v ts
  by_cases h0 : s.tsOld = 0
  · refine ⟨fun h => absurd ?_ h, fun h => ?_, fun h => ?_⟩ <;>
      simp [valueStep, h0] at *
  · by_cases h1 : ts > s.tsOld
    · by_cases h2 : s.cnt + 1 ≥ cfg.K
      · by_cases hP : s.statusOld ≠ cfg.classify v ∧ cfg.margin ≤ |v - s.valueOld|
        · have hsnd : (valueStep cfg s v ts).2 = true := by
            simp [valueStep, h0, h1, h2, hP.1, hP.2]
          have hold : (valueStep cfg s v ts).1.statusOld = cfg.classify v := by
            simp [valueStep, h0, h1, h2, hP.1, hP.2]
          refine ⟨fun h => ⟨h0, h1, h2, by simp [valueStep, h0, h1, h2]⟩,
                  fun _ => ⟨Ne.symm hP.1, hP.2, hold⟩,
                  fun h => ?_⟩
          rw [hsnd] at h
          exact Bool.noConfusion h
        · have hsnd : (valueStep cfg s v ts).2 = false := by
            simp [valueStep, h0, h1, h2, hP]
          have hold : (valueStep cfg s v ts).1.statusOld = s.statusOld := by
            simp [valueStep, h0, h1, h2, hP]
          refine ⟨fun h => ⟨h0, h1, h2, by simp [valueStep, h0, h1, h2]⟩,
                  fun h => ?_, fun _ => hold⟩
          rw [hsnd] at h
          exact Bool.noConfusion h
      · refine ⟨fun h => absurd ?_ h, fun h => ?_, fun h => ?_⟩ <;>
          simp [valueStep, h0, h1, h2] at *
    · refine ⟨fun h => absurd ?_ h, fun h => ?_, fun h => ?_⟩ <;>
        simp [valueStep, h0, h1] at *

/-- Witness for C3 (amended): a concrete K = 1 cycle whose value jump of
100 exceeds the margin fires the event and rebinds the baseline, while a
below-K cycle leaves the baseline untouched. -/
theorem statusChangePolicyW :
    (k1Cfg.classify 100 ≠ notifyState.statusOld ∧
     k1Cfg.margin ≤ |(100 : Int) - notifyState.valueOld| ∧
     (valueStep k1Cfg notifyState 100 2).1.statusOld = k1Cfg.classify 100) ∧
    ((valueStep lightCfg seedState1 5 2).1.statusOld = seedState1.statusOld) :=
  ⟨(statusChangePolicy k1Cfg notifyState 100 2).2.1 (by decide),
   (statusChangePolicy lightCfg seedState1 5 2).2.2 (by decide)⟩

/-- C8.  When the distance sensor fails (no echo) or reads out of range,
the raw source returns the sentinel `SONAR_DISTANCE_MAX = 95`; a burst
of five failed reads contributes five sentinels with no retry, its
median is 95, and the water pipeline consumes it as a normal value:
`level = WATER_TANK_EMPTY - 95 = -6`, the exponential filter accepts it,
and the measurement step stores it without signalling any error. -/
theorem sonarSentinelPropagates :
    sonarGetDistance SONAR_DISTANCE_MAX none = 95 ∧
    sonarGetDistance SONAR_DISTANCE_MAX (some 200) = 95 ∧
    List.replicate 5 (sonarGetDistance SONAR_DISTANCE_MAX none) =
        [95, 95, 95, 95, 95] ∧
    burstMedian (List.replicate 5 (sonarGetDistance SONAR_DISTANCE_MAX none)) = 95 ∧
    waterLevelOf (burstMedian (List.replicate 5 (sonarGetDistance SONAR_DISTANCE_MAX none))) =
        WATER_TANK_EMPTY - 95 ∧
    WATER_TANK_EMPTY - 95 = -6 ∧
    (efGetValue FACTOR_WATER none (((WATER_TANK_EMPTY - 95 : Int) : ℚ))).1 = -6 ∧
    (waterStep waterInit (-6) 1).1.value = -6 ∧
    (waterStep waterInit (-6) 1).2 = false := by
  refine ⟨by decide, by decide, by decide, by decide, by decide, by decide,
          ?_, by decide, by decide⟩
  norm_num [efGetValue, WATER_TANK_EMPTY]
